import Mathlib

/-!
Verification development for the elevenlabswhisper recording extension.

The repository's core is a capture-and-transcribe session controller.  Three
generations of it coexist in the sources and are embedded here:

* the zustand transcription store (`types.ts` + `transcription.store.ts`):
  `startRecording`, `stopAndTranscribe`, `retryTranscription`,
  `cancelRecording` and the cleanup helpers, including system-mute handling;
* the `RecorderController` with its 7-state `recordingStore`
  (`recorder.controller.ts` / `recording.store.ts`), including the
  single-flight `startPromise` guard;
* the services (`audio.service.ts` `AudioService.stop`,
  `system-audio.service.ts`) and the older `useSoxProcess` hook.

External fallible operations (process spawn/kill, filesystem stat/unlink,
AppleScript mute toggle, network transcription) are driven by an oracle
environment `Env`; the observable side effects each action performs are
collected in order as a `List Ev` trace.
-/

namespace ElevenLabsWhisper

/-- `WAV_HEADER_SIZE = 44`, the empty-recording threshold
(audio.service.ts / useSoxProcess.ts). -/
def WAV_HEADER_SIZE : Nat := 44

/-- JavaScript `m || d` on an error message: the empty string is falsy and
falls back to the default. -/
def orDefault (m d : String) : String := if m = "" then d else m

/-- JavaScript `text || ""` applied to a possibly-undefined transcription
result: `none` (undefined) and the empty string both yield `""`. -/
def jsOrEmpty (t : Option String) : String :=
  match t with
  | none => ""
  | some s => s

/-- Observable external effects, recorded in the order the code performs
them: process spawn, termination signals, the process close event being
observed, a file-size stat, a file deletion, the AppleScript mute-on /
mute-off calls, the toasts, and the transcription request. -/
inductive Ev where
  | spawn (path : String)
  | sigterm
  | sigkill
  | closed
  | statRead (path : String)
  | fileDelete (path : String)
  | muteOn
  | muteOff
  | toastMuted
  | toastRestored
  | toastMuteUnavailable
  | transcribeCall (path : String)
deriving DecidableEq, Repr

def isSpawn : Ev → Bool
  | .spawn _ => true
  | _ => false

/-- Number of capture processes spawned in a trace. -/
def countSpawns (tr : List Ev) : Nat := tr.countP isSpawn

def isTranscribe : Ev → Bool
  | .transcribeCall _ => true
  | _ => false

/-- Number of transcription requests issued in a trace. -/
def countTranscribes (tr : List Ev) : Nat := tr.countP isTranscribe

def isMuteOff : Ev → Bool
  | .muteOff => true
  | _ => false

/-- Number of mute-restore (unmute) attempts issued in a trace. -/
def countMuteOff (tr : List Ev) : Nat := tr.countP isMuteOff

def isMuteUnavailableToast : Ev → Bool
  | .toastMuteUnavailable => true
  | _ => false

/-- Number of mute-unavailable notifications fired in a trace. -/
def countMuteUnavailableToasts (tr : List Ev) : Nat :=
  tr.countP isMuteUnavailableToast

/-- Oracle for the fallible external collaborators: directory preparation,
the computed output path (storageService.recordingsDir + filename),
AppleScript get/set mute outcomes, whether the process object was already
killed, the spawn outcome, the graceful-stop outcome, the
`storageService.getFileSize` outcome, the raw `fs.promises.stat` outcome
(message, code) used by the useSoxProcess hook, and the transcription
outcome (`ok none` models a resolved-but-undefined text). -/
structure Env where
  ensureDir : Except String Unit
  outputPath : String
  getMuted : Except String Bool
  setMuteOk : Bool
  unmuteOk : Bool
  procKilled : Bool
  spawnResult : Except String Nat
  stopResult : Except String Unit
  fileSize : Except String Nat
  statResult : Except (String × String) Nat
  transcribe : Except String (Option String)

/-- `storageService.getFileSize(p).catch(() => 0)` — the validation call
sites in the store and the controller coerce a failed stat to size 0. -/
def sizeOrZero (r : Except String Nat) : Nat :=
  match r with
  | .ok n => n
  | .error _ => 0

/-- `MuteSnapshot` from system-audio.service.ts: `changed = true` means the
coordinator actually flipped mute on. -/
structure MuteSnapshot where
  originallyMuted : Bool
  changed : Bool
deriving DecidableEq, Repr

namespace SystemAudio

inductive RestoreResult where
  | restored
  | noop
  | failed
deriving DecidableEq, Repr

/-- `SystemAudioService.muteWithSnapshot`: reads the current mute state
(may throw), returns `{originallyMuted: true, changed: false}` without a
side effect when already muted, otherwise sets mute (may throw) and
returns `{originallyMuted: false, changed: true}`. -/
def muteWithSnapshot (env : Env) : Except String (MuteSnapshot × List Ev) :=
  match env.getMuted with
  | .error e => .error e
  | .ok true => .ok ({ originallyMuted := true, changed := false }, [])
  | .ok false =>
    if env.setMuteOk = true then
      .ok ({ originallyMuted := false, changed := true }, [Ev.muteOn])
    else .error "mute failed"

/-- `SystemAudioService.restoreFromSnapshot`: `noop` when the snapshot did
not change mute; otherwise issues the unmute call and reports `restored`
or `failed` — errors are caught, never thrown. -/
def restoreFromSnapshot (env : Env) (snap : MuteSnapshot) :
    RestoreResult × List Ev :=
  if snap.changed = true then
    if env.unmuteOk = true then (.restored, [Ev.muteOff])
    else (.failed, [Ev.muteOff])
  else (.noop, [])

end SystemAudio

/-- `TranscriptionStatus` of the zustand store (types.ts). -/
inductive Status where
  | idle
  | recording
  | transcribing
  | transcribingSuccess
  | transcribingError
deriving DecidableEq, Repr

/-- `TranscriptionState` of the zustand store (types.ts); underscore-prefixed
source fields keep their names without the underscore. -/
structure StoreState where
  status : Status
  transcript : Option String
  error : Option String
  filePath : Option String
  soxProcess : Option Nat
  currentFilePath : Option String
  transitionLock : Bool
  muteSnapshot : Option MuteSnapshot
  muteFailNotified : Bool
deriving DecidableEq, Repr

namespace Store

/-- transcription.store.ts `recordingFailedMessage`. -/
def recordingFailedMessage (m : String) : String := "Recording failed: " ++ m

/-- The store's initial state. -/
def initialState : StoreState :=
  { status := .idle, transcript := none, error := none, filePath := none, soxProcess := none, currentFilePath := none, transitionLock := false, muteSnapshot := none, muteFailNotified := false }

/-- `_restoreMuteIfNeeded`: returns immediately with no call when no
snapshot is stored; otherwise calls `restoreFromSnapshot` (toasting on a
real restore) and — in a `finally` — clears the snapshot regardless of the
restore outcome. -/
def restoreMuteIfNeeded (env : Env) (s : StoreState) : StoreState × List Ev :=
  match s.muteSnapshot with
  | none => (s, [])
  | some snap =>
    let r := SystemAudio.restoreFromSnapshot env snap
    let toastEvs :=
      if r.1 = SystemAudio.RestoreResult.restored ∧ snap.changed = true then
        [Ev.toastRestored]
      else []
    ({ s with muteSnapshot := none }, r.2 ++ toastEvs)

/-- `_cleanupSoxProcess`: SIGKILL the live process, if any, and clear the
handle. -/
def cleanupSoxProcess (s : StoreState) : StoreState × List Ev :=
  match s.soxProcess with
  | none => (s, [])
  | some _ => ({ s with soxProcess := none }, [Ev.sigkill])

/-- `_cleanupFile`: best-effort delete of the current artifact, clearing
both path fields. -/
def cleanupFile (s : StoreState) : StoreState × List Ev :=
  match s.currentFilePath with
  | none => (s, [])
  | some p => ({ s with currentFilePath := none, filePath := none }, [Ev.fileDelete p])

/-- `_cleanupAll`: mute restore, then process teardown, then artifact
deletion. -/
def cleanupAll (env : Env) (s : StoreState) : StoreState × List Ev :=
  let r1 := restoreMuteIfNeeded env s
  let r2 := cleanupSoxProcess r1.1
  let r3 := cleanupFile r2.1
  (r3.1, r1.2 ++ r2.2 ++ r3.2)

/-- `startRecording` (transcription.store.ts): guarded by the transition
lock and `status = idle`; sets status recording and resets
`muteFailNotified`; prepares the recordings directory; attempts the system
mute (a failure is swallowed, with a one-time mute-unavailable toast);
spawns the capture process; any thrown step runs `_cleanupAll` and lands in
idle with a `Recording failed:` message; the lock is released in a
`finally`.  The joined output path is taken from the oracle. -/
def startRecording (env : Env) (s : StoreState) : StoreState × List Ev :=
  if s.transitionLock = true ∨ s.status ≠ Status.idle then (s, [])
  else
    let s0 : StoreState :=
      { s with transitionLock := true, status := .recording, error := none, transcript := none, muteFailNotified := false }
    match env.ensureDir with
    | .error msg =>
      let r := cleanupAll env s0
      ({ r.1 with status := .idle, error := some (recordingFailedMessage (orDefault msg "Failed to start recording")), transitionLock := false }, r.2)
    | .ok _ =>
      let s1 := { s0 with currentFilePath := some env.outputPath }
      let m : StoreState × List Ev :=
        match SystemAudio.muteWithSnapshot env with
        | .ok (snap, evs) =>
          ({ s1 with muteSnapshot := some snap },
           evs ++ (if snap.changed = true then [Ev.toastMuted] else []))
        | .error _ =>
          if s1.muteFailNotified = true then (s1, [])
          else ({ s1 with muteFailNotified := true }, [Ev.toastMuteUnavailable])
      match env.spawnResult with
      | .ok pid =>
        ({ m.1 with soxProcess := some pid, filePath := some env.outputPath, transitionLock := false },
         m.2 ++ [Ev.spawn env.outputPath])
      | .error msg =>
        let r := cleanupAll env m.1
        ({ r.1 with status := .idle, error := some (recordingFailedMessage (orDefault msg "Failed to start recording")), transitionLock := false }, m.2 ++ r.2)

/-- `stopAndTranscribe` (transcription.store.ts): no-op unless a process is
live and status is recording; graceful stop (SIGTERM, then the awaited
close event — the terminate-and-wait discipline of audio.service's stop);
then mute restore; then the size check with a failed stat coerced to 0; an
artifact at or below 44 bytes is deleted and reported as an empty capture;
otherwise the transcription call resolves into success or error. -/
def stopAndTranscribe (env : Env) (s : StoreState) : StoreState × List Ev :=
  if s.soxProcess = none ∨ s.status ≠ Status.recording then (s, [])
  else
    match s.currentFilePath with
    | none =>
      let r := cleanupAll env s
      ({ r.1 with status := .idle, error := some (recordingFailedMessage "Missing recording file path") }, r.2)
    | some fp =>
      match env.stopResult with
      | .error msg =>
        let r := cleanupAll env s
        ({ r.1 with status := .idle, error := some (recordingFailedMessage (orDefault msg "Failed to stop recording")) },
         Ev.sigterm :: r.2)
      | .ok _ =>
        let s1 := { s with soxProcess := none }
        let rm := restoreMuteIfNeeded env s1
        let size := sizeOrZero env.fileSize
        let pre := Ev.sigterm :: Ev.closed :: (rm.2 ++ [Ev.statRead fp])
        if size ≤ WAV_HEADER_SIZE then
          let r2 := cleanupSoxProcess rm.1
          let r3 := cleanupFile r2.1
          ({ r3.1 with status := .idle, error := some (recordingFailedMessage "No audio was captured. The recording is empty."), filePath := none, currentFilePath := none },
           pre ++ r2.2 ++ r3.2)
        else
          match env.transcribe with
          | .ok t =>
            ({ rm.1 with status := .transcribingSuccess, transcript := some (jsOrEmpty t), error := none, currentFilePath := none },
             pre ++ [Ev.transcribeCall fp])
          | .error msg =>
            ({ rm.1 with status := .transcribingError, error := some (orDefault msg "Transcription failed") },
             pre ++ [Ev.transcribeCall fp])

/-- `retryTranscription` (transcription.store.ts): no-op unless in the
transcription-error state with a remembered artifact path; re-invokes the
transcription service on it. -/
def retryTranscription (env : Env) (s : StoreState) : StoreState × List Ev :=
  if s.status ≠ Status.transcribingError then (s, [])
  else
    match s.currentFilePath with
    | none => (s, [])
    | some fp =>
      match env.transcribe with
      | .ok t =>
        ({ s with status := .transcribingSuccess, transcript := some (jsOrEmpty t), error := none, currentFilePath := none }, [Ev.transcribeCall fp])
      | .error msg =>
        ({ s with status := .transcribingError, error := some (orDefault msg "Transcription failed") },
         [Ev.transcribeCall fp])

/-- `cancelRecording` (transcription.store.ts): if a process is live,
forcibly terminates it (audioService.cancel — SIGKILL then the awaited
close, errors ignored); then unconditionally runs `_cleanupAll` and sets
status idle with error and transcript cleared. -/
def cancelRecording (env : Env) (s : StoreState) : StoreState × List Ev :=
  let k : List Ev :=
    match s.soxProcess with
    | none => []
    | some _ => [Ev.sigkill, Ev.closed]
  let r := cleanupAll env s
  ({ r.1 with status := .idle, error := none, transcript := none }, k ++ r.2)

end Store

/-- `RecordingState['status']` (recording.store.ts): the 7-state machine of
the controller generation. -/
inductive CStatus where
  | idle
  | starting
  | recording
  | stopping
  | transcribing
  | success
  | error
deriving DecidableEq, Repr

/-- `RecordingState` (recording.store.ts). -/
structure RecordingState where
  status : CStatus
  error : Option String
  filePath : Option String
  transcript : Option String
deriving DecidableEq, Repr

/-- The private fields of `RecorderController` (recorder.controller.ts)
together with its `recordingStore`: the in-flight start/stop promises are
modelled as optional operation identifiers. -/
structure Ctrl where
  currentProc : Option Nat
  transitionLock : Bool
  currentFilePath : Option String
  startPending : Option Nat
  stopPending : Option Nat
  nextOpId : Nat
  store : RecordingState
deriving DecidableEq, Repr

namespace RecorderController

/-- A freshly constructed controller over an idle store. -/
def ctrlInit : Ctrl :=
  { currentProc := none, transitionLock := false, currentFilePath := none, startPending := none, stopPending := none, nextOpId := 0, store := { status := .idle, error := none, filePath := none, transcript := none } }

/-- `RecorderController.cleanup`: SIGKILL the live process and clear the
handle, then best-effort delete the current artifact and clear its path. -/
def cleanup (c : Ctrl) : Ctrl × List Ev :=
  let p : Ctrl × List Ev :=
    match c.currentProc with
    | none => (c, [])
    | some _ => ({ c with currentProc := none }, [Ev.sigkill])
  match p.1.currentFilePath with
  | none => p
  | some fp => ({ p.1 with currentFilePath := none }, p.2 ++ [Ev.fileDelete fp])

/-- `RecorderController.doStart`: takes the transition lock, moves the
store to `starting` clearing error/transcript, prepares the recordings
directory, remembers the computed output path, spawns the capture process
and moves to `recording`; any thrown step sets `error` with the causing
message (empty message falls back) and runs `cleanup`; the lock is
released in a `finally`. -/
def doStart (env : Env) (c : Ctrl) : Ctrl × List Ev :=
  let c0 := { c with transitionLock := true, store := { c.store with status := .starting, error := none, transcript := none } }
  match env.ensureDir with
  | .error msg =>
    let c1 := { c0 with store := { c0.store with status := .error, error := some (orDefault msg "Failed to start recording") } }
    let r := cleanup c1
    ({ r.1 with transitionLock := false }, r.2)
  | .ok _ =>
    let c1 := { c0 with currentFilePath := some env.outputPath }
    match env.spawnResult with
    | .ok pid =>
      ({ c1 with currentProc := some pid, transitionLock := false, store := { c1.store with status := .recording, filePath := some env.outputPath } }, [Ev.spawn env.outputPath])
    | .error msg =>
      let c2 := { c1 with store := { c1.store with status := .error, error := some (orDefault msg "Failed to start recording") } }
      let r := cleanup c2
      ({ r.1 with transitionLock := false }, r.2)

/-- `RecorderController.doTranscribe`: resolves into `success` with
`text || ''`, or into `error` with the failure message. -/
def doTranscribe (env : Env) (c : Ctrl) (fp : String) : Ctrl × List Ev :=
  match env.transcribe with
  | .ok t =>
    ({ c with currentFilePath := none, store := { c.store with status := .success, transcript := some (jsOrEmpty t) } }, [Ev.transcribeCall fp])
  | .error msg =>
    ({ c with store := { c.store with status := .error, error := some (orDefault msg "Transcription failed") } }, [Ev.transcribeCall fp])

/-- `RecorderController.doStop`: returns unless a process handle and a path
are held; moves to `stopping`; gracefully stops the process (SIGTERM, then
the awaited close event per §4.2 terminate-and-wait); reads the artifact
size with a failed stat coerced to 0; at or below 44 bytes the artifact is
deleted and the store moves to `error` with the empty-capture message;
otherwise moves to `transcribing` and runs `doTranscribe`.  A throw from
the stop lands in `error` with the causing message and runs `cleanup`. -/
def doStop (env : Env) (c : Ctrl) : Ctrl × List Ev :=
  match c.currentProc, c.currentFilePath with
  | some _, some fp =>
    let c0 := { c with store := { c.store with status := .stopping } }
    match env.stopResult with
    | .error msg =>
      let c1 := { c0 with store := { c0.store with status := .error, error := some (orDefault msg "Failed to stop recording") } }
      let r := cleanup c1
      (r.1, Ev.sigterm :: r.2)
    | .ok _ =>
      let c1 := { c0 with currentProc := none }
      let size := sizeOrZero env.fileSize
      if size ≤ WAV_HEADER_SIZE then
        ({ c1 with currentFilePath := none, store := { c1.store with status := .error, error := some "No audio was captured. The recording is empty." } }, [Ev.sigterm, Ev.closed, Ev.statRead fp, Ev.fileDelete fp])
      else
        let c2 := { c1 with store := { c1.store with status := .transcribing } }
        let r := doTranscribe env c2 fp
        (r.1, [Ev.sigterm, Ev.closed, Ev.statRead fp] ++ r.2)
  | _, _ => (c, [])

/-- The outcome a `requestStart` caller observes: it either invoked the
underlying `doStart` (a fresh in-flight operation), joined the already
pending one (awaiting the same promise), or hit the lock/status guard and
became a no-op. -/
inductive StartOutcome where
  | invoked (id : Nat)
  | joined (id : Nat)
  | noop
deriving DecidableEq, Repr

/-- The guard of `RecorderController.requestStart`: an in-flight
`startPromise` is returned as-is; otherwise the transition lock and
`status = idle` are checked and, on acceptance, a fresh pending operation
is installed (the `doStart()` promise being assigned to `startPromise`). -/
def requestStart (c : Ctrl) : Ctrl × StartOutcome :=
  match c.startPending with
  | some opid => (c, .joined opid)
  | none =>
    if c.transitionLock = true ∨ c.store.status ≠ CStatus.idle then (c, .noop)
    else ({ c with startPending := some c.nextOpId, nextOpId := c.nextOpId + 1 }, .invoked c.nextOpId)

/-- The `.finally` handler of `requestStart`: clears `startPromise` once
the in-flight operation settles, regardless of outcome. -/
def settleStart (c : Ctrl) : Ctrl := { c with startPending := none }

/-- A burst of `requestStart` arrivals, all made before the pending
operation settles (the concurrent-callers scenario). -/
def startBurst : Ctrl → Nat → Ctrl × List StartOutcome
  | c, 0 => (c, [])
  | c, n + 1 =>
    let r := requestStart c
    let rest := startBurst r.1 n
    (rest.1, r.2 :: rest.2)

/-- The guard of `RecorderController.requestStop`: an in-flight
`stopPromise` is joined; otherwise the call is a no-op unless a process
handle is held and the store status is `recording`. -/
def requestStop (c : Ctrl) : Ctrl × StartOutcome :=
  match c.stopPending with
  | some opid => (c, .joined opid)
  | none =>
    if c.currentProc = none ∨ c.store.status ≠ CStatus.recording then (c, .noop)
    else ({ c with stopPending := some c.nextOpId, nextOpId := c.nextOpId + 1 }, .invoked c.nextOpId)

end RecorderController

namespace AudioService

/-- `AudioService.stop` (audio.service.ts): rejects NOT_RECORDING /
MISSING_PATH without touching the process; otherwise registers a
once-close handler, sends SIGTERM, and only inside the close handler stats
the artifact — deleting it and rejecting EMPTY_RECORDING at or below 44
bytes, resolving with the path above it; a failed stat is re-thrown as-is
(its code is unknown here, recorded as the empty string). -/
def stop (env : Env) (proc : Option Nat) (currentRecordingPath : Option String) :
    Except (String × String) String × List Ev :=
  match proc with
  | none => (.error ("No recording is currently in progress.", "NOT_RECORDING"), [])
  | some _ =>
    match currentRecordingPath with
    | none => (.error ("Output path is missing.", "MISSING_PATH"), [])
    | some fp =>
      match env.fileSize with
      | .error e => (.error (e, ""), [Ev.sigterm, Ev.closed, Ev.statRead fp])
      | .ok n =>
        if n ≤ WAV_HEADER_SIZE then
          (.error ("No audio was captured. The recording is empty.", "EMPTY_RECORDING"), [Ev.sigterm, Ev.closed, Ev.statRead fp, Ev.fileDelete fp])
        else (.ok fp, [Ev.sigterm, Ev.closed, Ev.statRead fp])

end AudioService

/-- `ProcState` of the useSoxProcess hook. -/
inductive ProcState where
  | idle
  | recording
  | saving
deriving DecidableEq, Repr

/-- The state held by the useSoxProcess hook: its React state plus the
process and output-path refs. -/
structure HookState where
  state : ProcState
  procRef : Option Nat
  outputRef : Option String
deriving DecidableEq, Repr

/-- How a `stopAndSave` call settles: a returned
`(outputPath, size)` record, or a thrown error carrying a message and a
code (the raw fs error's code when the stat itself failed). -/
inductive SaveOutcome where
  | returned (out : Option String) (size : Nat)
  | errored (msg : String) (code : String)
deriving DecidableEq, Repr

namespace UseSoxProcess

/-- `useSoxProcess.stopAndSave`: returns `(outputRef, 0)` without touching
anything unless recording with a live proc; otherwise SIGTERMs (unless
already killed), awaits close and clears the proc ref; throws
SAVE_FAILED on a missing output path; stats the file — a failing stat
(e.g. a missing file) propagates as a thrown error; at or below 44 bytes
the file is unlinked and EMPTY_RECORDING is thrown; otherwise the path and
size are returned.  The state is reset to idle in the `finally`. -/
def stopAndSave (env : Env) (h : HookState) : HookState × SaveOutcome × List Ev :=
  if h.state ≠ ProcState.recording then (h, .returned h.outputRef 0, [])
  else
    match h.procRef with
    | none => (h, .returned h.outputRef 0, [])
    | some _ =>
      let evs := (if env.procKilled = true then [] else [Ev.sigterm]) ++ [Ev.closed]
      let h1 : HookState := { h with state := .saving, procRef := none }
      match h1.outputRef with
      | none => ({ h1 with state := .idle }, .errored "Missing output path" "SAVE_FAILED", evs)
      | some out =>
        match env.statResult with
        | .error e => ({ h1 with state := .idle }, .errored e.1 e.2, evs ++ [Ev.statRead out])
        | .ok n =>
          if n ≤ WAV_HEADER_SIZE then
            ({ h1 with state := .idle }, .errored "No audio captured" "EMPTY_RECORDING", evs ++ [Ev.statRead out, Ev.fileDelete out])
          else
            ({ h1 with state := .idle }, .returned (some out) n, evs ++ [Ev.statRead out])

/-- `useSoxProcess.cancel`: a no-op unless recording with a live proc;
otherwise SIGKILLs (unless already killed), awaits close, clears the proc
ref, unlinks the output file if a path is held, and resets to idle. -/
def cancel (env : Env) (h : HookState) : HookState × List Ev :=
  if h.state ≠ ProcState.recording then (h, [])
  else
    match h.procRef with
    | none => (h, [])
    | some _ =>
      let evs := (if env.procKilled = true then [] else [Ev.sigkill]) ++ [Ev.closed]
      let delEvs : List Ev :=
        match h.outputRef with
        | none => []
        | some out => [Ev.fileDelete out]
      ({ h with state := .idle, procRef := none }, evs ++ delEvs)

end UseSoxProcess

/-! ## Shared helper lemmas and concrete instances -/

/-- First position of an event in a trace (number of strictly earlier
entries before its first occurrence). -/
def firstPos (e : Ev) : List Ev → Nat
  | [] => 0
  | x :: xs => if x = e then 0 else firstPos e xs + 1

/-- A happy-path oracle: directory ok, system initially unmuted and both
toggles succeed, spawn yields pid 7, graceful stop succeeds, the artifact
is 10000 bytes, transcription resolves with a text. -/
def envW : Env :=
  { ensureDir := .ok (), outputPath := "r.wav", getMuted := .ok false, setMuteOk := true, unmuteOk := true, procKilled := false, spawnResult := .ok 7, stopResult := .ok (), fileSize := .ok 10000, statResult := .ok 10000, transcribe := .ok (some "hello world") }

/-- A store state in the middle of a recording session: process 7 live,
artifact path remembered, a changed mute snapshot pending. -/
def sRec : StoreState :=
  { Store.initialState with status := .recording, soxProcess := some 7, currentFilePath := some "r.wav", filePath := some "r.wav", muteSnapshot := some { originallyMuted := false, changed := true } }

/-- A controller in the middle of a recording session. -/
def cRec : Ctrl :=
  { RecorderController.ctrlInit with currentProc := some 7, currentFilePath := some "r.wav", store := { status := .recording, error := none, filePath := some "r.wav", transcript := none } }

/-- `_cleanupAll` always ends with no mute snapshot, no process handle and
no current artifact path, whatever the starting state and oracle. -/
theorem cleanupAll_clears (env : Env) (s : StoreState) :
    (Store.cleanupAll env s).1.muteSnapshot = none
    ∧ (Store.cleanupAll env s).1.soxProcess = none
    ∧ (Store.cleanupAll env s).1.currentFilePath = none
    ∧ (Store.cleanupAll env s).1.filePath = (if s.currentFilePath = none then s.filePath else none) := by
  rcases hm : s.muteSnapshot with _ | snap <;>
    rcases hp : s.soxProcess with _ | p <;>
    rcases hf : s.currentFilePath with _ | f <;>
    simp [Store.cleanupAll, Store.restoreMuteIfNeeded, Store.cleanupSoxProcess,
          Store.cleanupFile, hm, hp, hf]

/-- Every event `_restoreMuteIfNeeded` emits is an unmute call or the
volume-restored toast. -/
theorem restore_evs_shape (env : Env) (s : StoreState) :
    ∀ e ∈ (Store.restoreMuteIfNeeded env s).2, e = Ev.muteOff ∨ e = Ev.toastRestored := by
  rcases hm : s.muteSnapshot with _ | snap
  · simp [Store.restoreMuteIfNeeded, hm]
  · by_cases hc : snap.changed = true <;> by_cases hu : env.unmuteOk = true <;>
      simp [Store.restoreMuteIfNeeded, hm, SystemAudio.restoreFromSnapshot, hc, hu]

/-! ## Claim theorems -/

/-- Claim C8: a stop request made while the status is not RECORDING is a
no-op — the store's `stopAndTranscribe`, the hook's `stopAndSave` and the
controller's `requestStop` all return without mutating any state and
without sending any signal to a process (an empty trace). -/
theorem c8_stop_not_recording_noop
    (env : Env) (s : StoreState) (h : HookState) (c : Ctrl)
    (hs : s.status ≠ Status.recording)
    (hh : h.state ≠ ProcState.recording)
    (hcs : c.store.status ≠ CStatus.recording)
    (hcp : c.stopPending = none) :
    Store.stopAndTranscribe env s = (s, [])
    ∧ UseSoxProcess.stopAndSave env h = (h, SaveOutcome.returned h.outputRef 0, [])
    ∧ RecorderController.requestStop c = (c, RecorderController.StartOutcome.noop) := by
  refine ⟨?_, ?_, ?_⟩
  · simp [Store.stopAndTranscribe, hs]
  · simp [UseSoxProcess.stopAndSave, hh]
  · simp [RecorderController.requestStop, hcp, hcs]

/-- Witness for C8 at a concrete transcribing-state store, idle hook and
success-state controller. -/
theorem c8_witness :
    Store.stopAndTranscribe envW { Store.initialState with status := Status.transcribing }
        = ({ Store.initialState with status := Status.transcribing }, [])
    ∧ UseSoxProcess.stopAndSave envW { state := ProcState.idle, procRef := none, outputRef := none }
        = ({ state := ProcState.idle, procRef := none, outputRef := none }, SaveOutcome.returned none 0, [])
    ∧ RecorderController.requestStop RecorderController.ctrlInit
        = (RecorderController.ctrlInit, RecorderController.StartOutcome.noop) := by
  have h := c8_stop_not_recording_noop envW
    { Store.initialState with status := Status.transcribing }
    { state := ProcState.idle, procRef := none, outputRef := none }
    RecorderController.ctrlInit
    (by decide) (by decide) (by decide) rfl
  exact h

/-- Claim C9: a mute-toggle failure during start is non-fatal — the
exception is swallowed, exactly one mute-unavailable notification fires
(the `muteFailNotified` guard having been reset at the start of the
session, so this holds whatever the flag's prior value), and the capture
process is still spawned, leaving the session recording. -/
theorem c9_mute_failure_nonfatal
    (env : Env) (s : StoreState) (pid : Nat) (m : String)
    (hlock : s.transitionLock = false)
    (hidle : s.status = Status.idle)
    (hdir : env.ensureDir = Except.ok ())
    (hmute : env.getMuted = Except.error m)
    (hspawn : env.spawnResult = Except.ok pid) :
    (Store.startRecording env s).1.status = Status.recording
    ∧ (Store.startRecording env s).1.soxProcess = some pid
    ∧ (Store.startRecording env s).1.muteFailNotified = true
    ∧ countMuteUnavailableToasts (Store.startRecording env s).2 = 1
    ∧ countSpawns (Store.startRecording env s).2 = 1 := by
  simp [Store.startRecording, hlock, hidle, hdir, SystemAudio.muteWithSnapshot, hmute,
        hspawn, countMuteUnavailableToasts, countSpawns, List.countP, List.countP.go,
        isMuteUnavailableToast, isSpawn]

/-- Witness for C9: mute permission denied, yet the session records and the
notice fires once — starting from a state whose flag was still set from a
previous session. -/
theorem c9_witness :
    (Store.startRecording { envW with getMuted := .error "denied" } { Store.initialState with muteFailNotified := true }).1.status = Status.recording
    ∧ countMuteUnavailableToasts (Store.startRecording { envW with getMuted := .error "denied" } { Store.initialState with muteFailNotified := true }).2 = 1 := by
  have h := c9_mute_failure_nonfatal { envW with getMuted := .error "denied" }
    { Store.initialState with muteFailNotified := true } 7 "denied" rfl rfl rfl rfl rfl
  exact ⟨h.1, h.2.2.2.1⟩

/-- Claim C10: whenever a session reaches the success status after
transcription — on the normal stop path, on a retry, and in the
controller's `doTranscribe` — the transcript field holds a defined string,
with an undefined transcription result surfaced as `""`
(`jsOrEmpty none = ""`). -/
theorem c10_transcript_defined
    (env : Env) (s : StoreState) (pid : Nat) (fp : String) (n : Nat) (t : Option String)
    (hst : s.status = Status.recording)
    (hproc : s.soxProcess = some pid)
    (hfp : s.currentFilePath = some fp)
    (hstop : env.stopResult = Except.ok ())
    (hsize : env.fileSize = Except.ok n)
    (hn : WAV_HEADER_SIZE < n)
    (htr : env.transcribe = Except.ok t) :
    (Store.stopAndTranscribe env s).1.status = Status.transcribingSuccess
    ∧ (Store.stopAndTranscribe env s).1.transcript = some (jsOrEmpty t)
    ∧ (∀ s2 : StoreState, s2.status = Status.transcribingError → s2.currentFilePath = some fp →
        (Store.retryTranscription env s2).1.status = Status.transcribingSuccess
        ∧ (Store.retryTranscription env s2).1.transcript = some (jsOrEmpty t))
    ∧ (∀ c : Ctrl, (RecorderController.doTranscribe env c fp).1.store.transcript = some (jsOrEmpty t))
    ∧ jsOrEmpty none = "" := by
  have hnle : ¬ (sizeOrZero env.fileSize ≤ WAV_HEADER_SIZE) := by
    simp [sizeOrZero, hsize]; omega
  refine ⟨?_, ?_, ?_, ?_, rfl⟩
  · simp [Store.stopAndTranscribe, hst, hproc, hfp, hstop, hnle, htr]
  · simp [Store.stopAndTranscribe, hst, hproc, hfp, hstop, hnle, htr]
  · intro s2 h2 hfp2
    constructor <;> simp [Store.retryTranscription, h2, hfp2, htr]
  · intro c
    simp [RecorderController.doTranscribe, htr]

/-- Witness for C10 with a transcription that resolves with an undefined
text: the transcript is the defined empty string. -/
theorem c10_witness :
    (Store.stopAndTranscribe { envW with transcribe := .ok none } sRec).1.status = Status.transcribingSuccess
    ∧ (Store.stopAndTranscribe { envW with transcribe := .ok none } sRec).1.transcript = some "" := by
  have h := c10_transcript_defined { envW with transcribe := .ok none } sRec 7 "r.wav" 10000 none
    rfl rfl rfl rfl rfl (by decide) rfl
  exact ⟨h.1, h.2.1⟩

/-- Counterexample to claim C4 as stated: `cancelRecording` is not a no-op
when no process handle is live.  From a transcription-error state with no
live process (and nothing else pending) the call still mutates the session,
clearing the stored error and transitioning to idle. -/
theorem c4_counterexample :
    ({ Store.initialState with status := Status.transcribingError, error := some "Transcription failed" } : StoreState).soxProcess = none
    ∧ (Store.cancelRecording envW { Store.initialState with status := Status.transcribingError, error := some "Transcription failed" }).1
        ≠ { Store.initialState with status := Status.transcribingError, error := some "Transcription failed" }
    ∧ (Store.cancelRecording envW { Store.initialState with status := Status.transcribingError, error := some "Transcription failed" }).1.status = Status.idle
    ∧ (Store.cancelRecording envW { Store.initialState with status := Status.transcribingError, error := some "Transcription failed" }).1.error = none := by
  decide

/-- Claim C4, amended: every completed `cancelRecording` leaves the session
idle (never an error state) with no live process handle, no pending mute
snapshot and no artifact — the current artifact, when one is held, is
deleted from disk — performing the same `_cleanupAll` routine as the error
paths; but the call is not gated on a live process handle: only the
process-termination step is skipped without one (as in the hook's
`cancel`, which is the variant that is a strict no-op outside of a live
recording), while cleanup and the transition to idle run unconditionally. -/
theorem c4_cancel_always_idle
    (env : Env) (s : StoreState) (p : String)
    (hfp : s.currentFilePath = some p) :
    (Store.cancelRecording env s).1.status = Status.idle
    ∧ (Store.cancelRecording env s).1.error = none
    ∧ (Store.cancelRecording env s).1.transcript = none
    ∧ (Store.cancelRecording env s).1.soxProcess = none
    ∧ (Store.cancelRecording env s).1.currentFilePath = none
    ∧ (Store.cancelRecording env s).1.filePath = none
    ∧ (Store.cancelRecording env s).1.muteSnapshot = none
    ∧ Ev.fileDelete p ∈ (Store.cancelRecording env s).2
    ∧ (∀ h : HookState, h.state ≠ ProcState.recording → UseSoxProcess.cancel env h = (h, [])) := by
  have hclr := cleanupAll_clears env s
  refine ⟨?_, ?_, ?_, ?_, ?_, ?_, ?_, ?_, ?_⟩
  · simp [Store.cancelRecording]
  · simp [Store.cancelRecording]
  · simp [Store.cancelRecording]
  · simp only [Store.cancelRecording]
    exact hclr.2.1
  · simp only [Store.cancelRecording]
    exact hclr.2.2.1
  · simp only [Store.cancelRecording]
    rw [hclr.2.2.2]
    simp [hfp]
  · simp only [Store.cancelRecording]
    exact hclr.1
  · simp only [Store.cancelRecording, List.mem_append]
    right
    rcases hm : s.muteSnapshot with _ | snap <;>
      rcases hp : s.soxProcess with _ | pr <;>
      simp [Store.cleanupAll, Store.restoreMuteIfNeeded, Store.cleanupSoxProcess,
            Store.cleanupFile, hm, hp, hfp]
  · intro h hh
    simp [UseSoxProcess.cancel, hh]

/-- Witness for C4 (amended) on a live recording session. -/
theorem c4_witness :
    (Store.cancelRecording envW sRec).1.status = Status.idle
    ∧ (Store.cancelRecording envW sRec).1.soxProcess = none
    ∧ (Store.cancelRecording envW sRec).1.muteSnapshot = none
    ∧ Ev.fileDelete "r.wav" ∈ (Store.cancelRecording envW sRec).2 := by
  have h := c4_cancel_always_idle envW sRec "r.wav" rfl
  exact ⟨h.1, h.2.2.2.1, h.2.2.2.2.2.2.1, h.2.2.2.2.2.2.2.1⟩

/-- Counterexample to claim C7 as stated: in the useSoxProcess hook's
`stopAndSave` — one of the callers performing artifact validation — a
missing file is not treated as a `valid = false, size = 0` result: the
failing `fs.promises.stat` propagates as a thrown error (here the raw fs
ENOENT error), the caller must catch it, and the empty-capture branch (with
its unlink) is never taken. -/
theorem c7_counterexample :
    (UseSoxProcess.stopAndSave { envW with statResult := .error ("no such file or directory", "ENOENT") } { state := ProcState.recording, procRef := some 1, outputRef := some "a.wav" }).2.1
        = SaveOutcome.errored "no such file or directory" "ENOENT"
    ∧ Ev.fileDelete "a.wav" ∉ (UseSoxProcess.stopAndSave { envW with statResult := .error ("no such file or directory", "ENOENT") } { state := ProcState.recording, procRef := some 1, outputRef := some "a.wav" }).2.2 := by
  decide

/-- Claim C7, amended: at the session controller's validation call sites —
the store's `stopAndTranscribe` and the controller's `doStop`, which read
the size through `getFileSize(..).catch(() => 0)` — a missing file is
treated as size 0 and hence as an invalid (empty-capture) artifact rather
than as a thrown error, so those callers branch uniformly on the result;
the legacy hook's `stopAndSave`, by contrast, propagates the stat failure
to its caller, which must catch exceptions. -/
theorem c7_missing_file_validation
    (env : Env) (s : StoreState) (c : Ctrl) (pid : Nat) (fp : String) (e : String)
    (hsize : env.fileSize = Except.error e)
    (hst : s.status = Status.recording)
    (hproc : s.soxProcess = some pid)
    (hfp : s.currentFilePath = some fp)
    (hstop : env.stopResult = Except.ok ())
    (hcproc : c.currentProc = some pid)
    (hcfp : c.currentFilePath = some fp) :
    sizeOrZero env.fileSize = 0
    ∧ (Store.stopAndTranscribe env s).1.status = Status.idle
    ∧ (Store.stopAndTranscribe env s).1.error = some (Store.recordingFailedMessage "No audio was captured. The recording is empty.")
    ∧ countTranscribes (Store.stopAndTranscribe env s).2 = 0
    ∧ (RecorderController.doStop env c).1.store.status = CStatus.error
    ∧ (RecorderController.doStop env c).1.store.error = some "No audio was captured. The recording is empty."
    ∧ countTranscribes (RecorderController.doStop env c).2 = 0 := by
  have hle : sizeOrZero env.fileSize ≤ WAV_HEADER_SIZE := by
    simp [sizeOrZero, hsize, WAV_HEADER_SIZE]
  have hstore : (Store.stopAndTranscribe env s).1.status = Status.idle
      ∧ (Store.stopAndTranscribe env s).1.error = some (Store.recordingFailedMessage "No audio was captured. The recording is empty.")
      ∧ countTranscribes (Store.stopAndTranscribe env s).2 = 0 := by
    rcases hm : s.muteSnapshot with _ | snap
    · simp [Store.stopAndTranscribe, hst, hproc, hfp, hstop, hle, hm,
            Store.restoreMuteIfNeeded, Store.cleanupSoxProcess, Store.cleanupFile,
            countTranscribes, List.countP, List.countP.go, isTranscribe]
    · by_cases hc : snap.changed = true <;> by_cases hu : env.unmuteOk = true <;>
        simp [Store.stopAndTranscribe, hst, hproc, hfp, hstop, hle, hm, hc, hu,
              SystemAudio.restoreFromSnapshot, Store.restoreMuteIfNeeded,
              Store.cleanupSoxProcess, Store.cleanupFile,
              countTranscribes, List.countP, List.countP.go, isTranscribe]
  refine ⟨by simp [sizeOrZero, hsize], hstore.1, hstore.2.1, hstore.2.2, ?_, ?_, ?_⟩ <;>
    simp [RecorderController.doStop, hcproc, hcfp, hstop, hle,
          countTranscribes, List.countP, List.countP.go, isTranscribe]

/-- Witness for C7 (amended): a missing artifact on the stop path lands in
the empty-capture branch without a throw. -/
theorem c7_witness :
    sizeOrZero (Except.error "ENOENT") = 0
    ∧ (Store.stopAndTranscribe { envW with fileSize := .error "ENOENT" } sRec).1.error
        = some (Store.recordingFailedMessage "No audio was captured. The recording is empty.")
    ∧ countTranscribes (Store.stopAndTranscribe { envW with fileSize := .error "ENOENT" } sRec).2 = 0 := by
  have h := c7_missing_file_validation { envW with fileSize := .error "ENOENT" } sRec cRec 7 "r.wav" "ENOENT"
    rfl rfl rfl rfl rfl rfl rfl
  exact ⟨h.1, h.2.2.1, h.2.2.2.1⟩

/-- Claim C2: stopping a recording whose artifact is at most 44 bytes (the
WAV header size) ends the session in the error state with the
empty-capture message; the artifact is deleted from disk, no transcription
call is issued, and — in `AudioService.stop` — the artifact is never
resolved as a usable recording, the call rejecting EMPTY_RECORDING after
deleting the file. -/
theorem c2_empty_artifact_error
    (env : Env) (c : Ctrl) (pid : Nat) (fp : String) (n : Nat)
    (hproc : c.currentProc = some pid)
    (hfp : c.currentFilePath = some fp)
    (hstop : env.stopResult = Except.ok ())
    (hsize : env.fileSize = Except.ok n)
    (hn : n ≤ WAV_HEADER_SIZE) :
    (RecorderController.doStop env c).1.store.status = CStatus.error
    ∧ (RecorderController.doStop env c).1.store.error = some "No audio was captured. The recording is empty."
    ∧ (RecorderController.doStop env c).1.currentFilePath = none
    ∧ Ev.fileDelete fp ∈ (RecorderController.doStop env c).2
    ∧ countTranscribes (RecorderController.doStop env c).2 = 0
    ∧ (AudioService.stop env (some pid) (some fp)).1
        = Except.error ("No audio was captured. The recording is empty.", "EMPTY_RECORDING")
    ∧ Ev.fileDelete fp ∈ (AudioService.stop env (some pid) (some fp)).2 := by
  have hle : sizeOrZero env.fileSize ≤ WAV_HEADER_SIZE := by
    simp [sizeOrZero, hsize]; exact hn
  refine ⟨?_, ?_, ?_, ?_, ?_, ?_, ?_⟩ <;>
    simp [RecorderController.doStop, AudioService.stop, hproc, hfp, hstop, hsize, hn, hle,
          sizeOrZero, countTranscribes, List.countP, List.countP.go, isTranscribe]

/-- Witness for C2 at a 20-byte artifact. -/
theorem c2_witness :
    (RecorderController.doStop { envW with fileSize := .ok 20 } cRec).1.store.status = CStatus.error
    ∧ (RecorderController.doStop { envW with fileSize := .ok 20 } cRec).1.store.error
        = some "No audio was captured. The recording is empty."
    ∧ Ev.fileDelete "r.wav" ∈ (RecorderController.doStop { envW with fileSize := .ok 20 } cRec).2
    ∧ (AudioService.stop { envW with fileSize := .ok 20 } (some 7) (some "r.wav")).1
        = Except.error ("No audio was captured. The recording is empty.", "EMPTY_RECORDING") := by
  have h := c2_empty_artifact_error { envW with fileSize := .ok 20 } cRec 7 "r.wav" 20
    rfl rfl rfl rfl (by decide)
  exact ⟨h.1, h.2.1, h.2.2.2.1, h.2.2.2.2.2.1⟩

/-- Claim C3: an exception anywhere in the start sequence runs the full
cleanup and lands in the error state carrying the causing message: for a
spawn failure with message "not found" the controller ends in
`status = error, error = "not found"` with no process handle and no
artifact path; the same holds for a directory-preparation failure with its
own message; and on the store generation (which owns the mute snapshot)
the same spawn failure ends with no process handle, no pending mute
snapshot, no artifact path, and the causing message recorded. -/
theorem c3_start_failure_cleanup
    (env : Env) (c : Ctrl) (s : StoreState)
    (hdir : env.ensureDir = Except.ok ())
    (hspawn : env.spawnResult = Except.error "not found")
    (hlock : s.transitionLock = false)
    (hidle : s.status = Status.idle) :
    (RecorderController.doStart env c).1.store.status = CStatus.error
    ∧ (RecorderController.doStart env c).1.store.error = some "not found"
    ∧ (RecorderController.doStart env c).1.currentProc = none
    ∧ (RecorderController.doStart env c).1.currentFilePath = none
    ∧ (∀ (env2 : Env) (msg : String), env2.ensureDir = Except.error msg → msg ≠ "" →
        (RecorderController.doStart env2 c).1.store.status = CStatus.error
        ∧ (RecorderController.doStart env2 c).1.store.error = some msg
        ∧ (RecorderController.doStart env2 c).1.currentProc = none
        ∧ (RecorderController.doStart env2 c).1.currentFilePath = none)
    ∧ (Store.startRecording env s).1.status = Status.idle
    ∧ (Store.startRecording env s).1.error = some (Store.recordingFailedMessage "not found")
    ∧ (Store.startRecording env s).1.soxProcess = none
    ∧ (Store.startRecording env s).1.muteSnapshot = none
    ∧ (Store.startRecording env s).1.currentFilePath = none := by
  refine ⟨?_, ?_, ?_, ?_, ?_, ?_, ?_, ?_, ?_, ?_⟩
  · rcases hp : c.currentProc with _ | pr <;>
      simp [RecorderController.doStart, RecorderController.cleanup, hdir, hspawn, hp]
  · rcases hp : c.currentProc with _ | pr <;>
      simp [RecorderController.doStart, RecorderController.cleanup, hdir, hspawn, hp, orDefault]
  · rcases hp : c.currentProc with _ | pr <;>
      simp [RecorderController.doStart, RecorderController.cleanup, hdir, hspawn, hp]
  · rcases hp : c.currentProc with _ | pr <;>
      simp [RecorderController.doStart, RecorderController.cleanup, hdir, hspawn, hp]
  · intro env2 msg h2 hmsg
    refine ⟨?_, ?_, ?_, ?_⟩
    · rcases hp : c.currentProc with _ | pr <;>
        rcases hcf : c.currentFilePath with _ | q <;>
        simp [RecorderController.doStart, RecorderController.cleanup, h2, hp, hcf]
    · rcases hp : c.currentProc with _ | pr <;>
        rcases hcf : c.currentFilePath with _ | q <;>
        simp [RecorderController.doStart, RecorderController.cleanup, h2, hp, hcf, orDefault, hmsg]
    · rcases hp : c.currentProc with _ | pr <;>
        rcases hcf : c.currentFilePath with _ | q <;>
        simp [RecorderController.doStart, RecorderController.cleanup, h2, hp, hcf]
    · rcases hp : c.currentProc with _ | pr <;>
        rcases hcf : c.currentFilePath with _ | q <;>
        simp [RecorderController.doStart, RecorderController.cleanup, h2, hp, hcf]
  · simp only [Store.startRecording]
    simp [hlock, hidle, hdir, hspawn]
  · simp only [Store.startRecording]
    simp [hlock, hidle, hdir, hspawn, orDefault]
  · simp only [Store.startRecording]
    simp [hlock, hidle, hdir, hspawn]
    exact (cleanupAll_clears env _).2.1
  · simp only [Store.startRecording]
    simp [hlock, hidle, hdir, hspawn]
    exact (cleanupAll_clears env _).1
  · simp only [Store.startRecording]
    simp [hlock, hidle, hdir, hspawn]
    exact (cleanupAll_clears env _).2.2.1

/-- Witness for C3: the spawn-failure scenario at concrete inputs. -/
theorem c3_witness :
    (RecorderController.doStart { envW with spawnResult := .error "not found" } RecorderController.ctrlInit).1.store.status = CStatus.error
    ∧ (RecorderController.doStart { envW with spawnResult := .error "not found" } RecorderController.ctrlInit).1.store.error = some "not found"
    ∧ (RecorderController.doStart { envW with spawnResult := .error "not found" } RecorderController.ctrlInit).1.currentProc = none
    ∧ (Store.startRecording { envW with spawnResult := .error "not found" } Store.initialState).1.muteSnapshot = none := by
  have h := c3_start_failure_cleanup { envW with spawnResult := .error "not found" }
    RecorderController.ctrlInit Store.initialState rfl rfl rfl rfl
  exact ⟨h.1, h.2.1, h.2.2.1, h.2.2.2.2.2.2.2.2.1⟩

/-- Claim C5: once `muteWithSnapshot` reported `changed = true`, the mute
flag is restored exactly once by the time the session settles — exactly
one unmute attempt is issued on the normal stop path and on the cancel
path, and both end with the snapshot cleared; restoration is idempotent (a
run with no stored snapshot is a strict no-op, so a second invocation
after the first is a no-op) and every run clears the stored snapshot
whatever the restore outcome. -/
theorem c5_mute_restored_exactly_once
    (env : Env) (s : StoreState) (snap : MuteSnapshot) (pid : Nat) (fp : String)
    (hsnap : s.muteSnapshot = some snap)
    (hch : snap.changed = true)
    (hst : s.status = Status.recording)
    (hproc : s.soxProcess = some pid)
    (hfp : s.currentFilePath = some fp)
    (hstop : env.stopResult = Except.ok ()) :
    (∀ s2 : StoreState, s2.muteSnapshot = none → Store.restoreMuteIfNeeded env s2 = (s2, []))
    ∧ (∀ s2 : StoreState, (Store.restoreMuteIfNeeded env s2).1.muteSnapshot = none)
    ∧ countMuteOff (Store.restoreMuteIfNeeded env s).2 = 1
    ∧ Store.restoreMuteIfNeeded env (Store.restoreMuteIfNeeded env s).1
        = ((Store.restoreMuteIfNeeded env s).1, [])
    ∧ countMuteOff (Store.stopAndTranscribe env s).2 = 1
    ∧ (Store.stopAndTranscribe env s).1.muteSnapshot = none
    ∧ countMuteOff (Store.cancelRecording env s).2 = 1
    ∧ (Store.cancelRecording env s).1.muteSnapshot = none := by
  have hnoopOnNone : ∀ s2 : StoreState, s2.muteSnapshot = none →
      Store.restoreMuteIfNeeded env s2 = (s2, []) := by
    intro s2 h2
    simp [Store.restoreMuteIfNeeded, h2]
  have hclears : ∀ s2 : StoreState, (Store.restoreMuteIfNeeded env s2).1.muteSnapshot = none := by
    intro s2
    rcases h2 : s2.muteSnapshot with _ | sn <;> simp [Store.restoreMuteIfNeeded, h2]
  refine ⟨hnoopOnNone, hclears, ?_, hnoopOnNone _ (hclears s), ?_, ?_, ?_, ?_⟩
  · by_cases hu : env.unmuteOk = true <;>
      simp [Store.restoreMuteIfNeeded, hsnap, SystemAudio.restoreFromSnapshot, hch, hu,
            countMuteOff, List.countP, List.countP.go, isMuteOff]
  · by_cases hu : env.unmuteOk = true <;>
      by_cases hsz : sizeOrZero env.fileSize ≤ WAV_HEADER_SIZE <;>
      rcases htr : env.transcribe with m | t <;>
      simp [Store.stopAndTranscribe, hst, hproc, hfp, hstop, hsnap, hch, hu, hsz, htr,
            Store.restoreMuteIfNeeded, SystemAudio.restoreFromSnapshot,
            Store.cleanupSoxProcess, Store.cleanupFile,
            countMuteOff, List.countP, List.countP.go, isMuteOff]
  · by_cases hu : env.unmuteOk = true <;>
      by_cases hsz : sizeOrZero env.fileSize ≤ WAV_HEADER_SIZE <;>
      rcases htr : env.transcribe with m | t <;>
      simp [Store.stopAndTranscribe, hst, hproc, hfp, hstop, hsnap, hch, hu, hsz, htr,
            Store.restoreMuteIfNeeded, SystemAudio.restoreFromSnapshot,
            Store.cleanupSoxProcess, Store.cleanupFile]
  · by_cases hu : env.unmuteOk = true <;>
      simp [Store.cancelRecording, Store.cleanupAll, Store.restoreMuteIfNeeded, hsnap, hch, hu,
            SystemAudio.restoreFromSnapshot, Store.cleanupSoxProcess, Store.cleanupFile,
            hproc, hfp, countMuteOff, List.countP, List.countP.go, isMuteOff]
  · simp only [Store.cancelRecording]
    exact (cleanupAll_clears env s).1

/-- Witness for C5 on a live session with a changed snapshot. -/
theorem c5_witness :
    countMuteOff (Store.restoreMuteIfNeeded envW sRec).2 = 1
    ∧ countMuteOff (Store.stopAndTranscribe envW sRec).2 = 1
    ∧ (Store.stopAndTranscribe envW sRec).1.muteSnapshot = none
    ∧ countMuteOff (Store.cancelRecording envW sRec).2 = 1 := by
  have h := c5_mute_restored_exactly_once envW sRec
    { originallyMuted := false, changed := true } 7 "r.wav" rfl rfl rfl rfl rfl rfl
  exact ⟨h.2.2.1, h.2.2.2.2.1, h.2.2.2.2.2.1, h.2.2.2.2.2.2.1⟩

/-- Claim C6: on the normal stop path the process close event is observed
strictly before the artifact's size is read, and any mute-restore attempt
happens strictly after the close event and strictly before the size read —
hence before the transcription call, which itself can only come after the
size read.  Stated over the first occurrences of the events in the
execution trace of `stopAndTranscribe`. -/
theorem c6_stop_ordering
    (env : Env) (s : StoreState) (pid : Nat) (fp : String)
    (hst : s.status = Status.recording)
    (hproc : s.soxProcess = some pid)
    (hfp : s.currentFilePath = some fp)
    (hstop : env.stopResult = Except.ok ()) :
    Ev.closed ∈ (Store.stopAndTranscribe env s).2
    ∧ Ev.statRead fp ∈ (Store.stopAndTranscribe env s).2
    ∧ firstPos Ev.closed (Store.stopAndTranscribe env s).2
        < firstPos (Ev.statRead fp) (Store.stopAndTranscribe env s).2
    ∧ (Ev.muteOff ∈ (Store.stopAndTranscribe env s).2 →
        firstPos Ev.closed (Store.stopAndTranscribe env s).2
            < firstPos Ev.muteOff (Store.stopAndTranscribe env s).2
        ∧ firstPos Ev.muteOff (Store.stopAndTranscribe env s).2
            < firstPos (Ev.statRead fp) (Store.stopAndTranscribe env s).2)
    ∧ (Ev.transcribeCall fp ∈ (Store.stopAndTranscribe env s).2 →
        firstPos (Ev.statRead fp) (Store.stopAndTranscribe env s).2
            < firstPos (Ev.transcribeCall fp) (Store.stopAndTranscribe env s).2) := by
  rcases hms : s.muteSnapshot with _ | snap
  · by_cases hsz : sizeOrZero env.fileSize ≤ WAV_HEADER_SIZE <;>
      rcases htr : env.transcribe with m | t <;>
      simp [Store.stopAndTranscribe, hst, hproc, hfp, hstop, hms, hsz, htr,
            Store.restoreMuteIfNeeded, Store.cleanupSoxProcess, Store.cleanupFile, firstPos]
  · by_cases hch : snap.changed = true <;>
      by_cases hu : env.unmuteOk = true <;>
      by_cases hsz : sizeOrZero env.fileSize ≤ WAV_HEADER_SIZE <;>
      rcases htr : env.transcribe with m | t <;>
      simp [Store.stopAndTranscribe, hst, hproc, hfp, hstop, hms, hch, hu, hsz, htr,
            Store.restoreMuteIfNeeded, SystemAudio.restoreFromSnapshot,
            Store.cleanupSoxProcess, Store.cleanupFile, firstPos]

/-- Witness for C6 on the happy path with a changed snapshot: close at
position 1, the unmute at 2, the size read at 4, the transcription call
last. -/
theorem c6_witness :
    Ev.closed ∈ (Store.stopAndTranscribe envW sRec).2
    ∧ firstPos Ev.closed (Store.stopAndTranscribe envW sRec).2
        < firstPos (Ev.statRead "r.wav") (Store.stopAndTranscribe envW sRec).2
    ∧ firstPos Ev.closed (Store.stopAndTranscribe envW sRec).2
        < firstPos Ev.muteOff (Store.stopAndTranscribe envW sRec).2
    ∧ firstPos Ev.muteOff (Store.stopAndTranscribe envW sRec).2
        < firstPos (Ev.statRead "r.wav") (Store.stopAndTranscribe envW sRec).2
    ∧ firstPos (Ev.statRead "r.wav") (Store.stopAndTranscribe envW sRec).2
        < firstPos (Ev.transcribeCall "r.wav") (Store.stopAndTranscribe envW sRec).2 := by
  have h := c6_stop_ordering envW sRec 7 "r.wav" rfl rfl rfl rfl
  have hm : Ev.muteOff ∈ (Store.stopAndTranscribe envW sRec).2 := by decide
  have ht : Ev.transcribeCall "r.wav" ∈ (Store.stopAndTranscribe envW sRec).2 := by decide
  exact ⟨h.1, h.2.2.1, (h.2.2.2.1 hm).1, (h.2.2.2.1 hm).2, h.2.2.2.2 ht⟩

/-- While a start operation is pending, every further `requestStart`
arrival joins the same in-flight operation and the controller state does
not change. -/
theorem startBurst_pending (n : Nat) (c : Ctrl) (opid : Nat)
    (h : c.startPending = some opid) :
    RecorderController.startBurst c n
        = (c, List.replicate n (RecorderController.StartOutcome.joined opid)) := by
  induction n with
  | zero => simp [RecorderController.startBurst]
  | succ k ih =>
    simp [RecorderController.startBurst, RecorderController.requestStart, h, ih,
          List.replicate_succ]

/-- Claim C1: for any burst of concurrent `requestStart` arrivals made from
an idle, unlocked controller with no pending operation, exactly the first
call invokes the underlying start transition and installs the in-flight
promise; every later arrival in the burst joins (awaits) that same
operation's outcome instead of re-invoking it, so the single `doStart` run
spawns exactly one capture process; and the `.finally` handler clears the
pending promise once the operation settles, whatever the outcome. -/
theorem c1_single_flight_start
    (n : Nat) (c0 : Ctrl) (env : Env) (pid : Nat)
    (hpend : c0.startPending = none)
    (hlock : c0.transitionLock = false)
    (hstatus : c0.store.status = CStatus.idle)
    (hdir : env.ensureDir = Except.ok ())
    (hspawn : env.spawnResult = Except.ok pid) :
    (RecorderController.startBurst c0 (n + 1)).2
        = RecorderController.StartOutcome.invoked c0.nextOpId
            :: List.replicate n (RecorderController.StartOutcome.joined c0.nextOpId)
    ∧ countSpawns (RecorderController.doStart env (RecorderController.startBurst c0 (n + 1)).1).2 = 1
    ∧ (∀ c : Ctrl, (RecorderController.settleStart c).startPending = none) := by
  have hstep : RecorderController.requestStart c0
      = ({ c0 with startPending := some c0.nextOpId, nextOpId := c0.nextOpId + 1 },
         RecorderController.StartOutcome.invoked c0.nextOpId) := by
    simp [RecorderController.requestStart, hpend, hlock, hstatus]
  have hrest := startBurst_pending n
    { c0 with startPending := some c0.nextOpId, nextOpId := c0.nextOpId + 1 } c0.nextOpId rfl
  refine ⟨?_, ?_, fun c => rfl⟩
  · simp [RecorderController.startBurst, hstep, hrest]
  · simp only [RecorderController.startBurst, hstep, hrest]
    simp [RecorderController.doStart, hdir, hspawn, countSpawns,
          List.countP, List.countP.go, isSpawn]

/-- Witness for C1: three concurrent arrivals at a fresh controller — one
invocation, two joins of operation 0, one spawned process. -/
theorem c1_witness :
    (RecorderController.startBurst RecorderController.ctrlInit 3).2
        = RecorderController.StartOutcome.invoked 0
            :: List.replicate 2 (RecorderController.StartOutcome.joined 0)
    ∧ countSpawns (RecorderController.doStart envW (RecorderController.startBurst RecorderController.ctrlInit 3).1).2 = 1 := by
  have h := c1_single_flight_start 2 RecorderController.ctrlInit envW 7 rfl rfl rfl rfl rfl
  exact ⟨h.1, h.2.1⟩

end ElevenLabsWhisper
